import Mathlib

/-!
Verification of the ESP32 nerf-turret controller
(`src/esp32_nerf_turret_gun.ino`) against its natural-language
specification.

The sketch keeps its whole controller state in global variables
(`motorsRunning`, `motorStartTime`, `continuousMode`, `isFiring`,
`lastFireTime`, `triggerPressStartTime`, `triggerPressed`) plus the
actuation outputs (motor driver pins, trigger-servo angle).  We embed
those globals as a structure, `millis()` as an explicit `now : Nat`
argument, and each handler / the timer section of `loop()` as a pure
state transformer.  HTTP responses are modelled as the list of bodies
passed to `server.send` during one request.
-/

namespace Turret

/-- Configuration constant `MOTOR_RUN_TIME` (ms). -/
def MOTOR_RUN_TIME : Nat := 2000

/-- Configuration constant `FIRE_INTERVAL` (ms). -/
def FIRE_INTERVAL : Nat := 500

/-- Configuration constant `TRIGGER_PRESS_TIME` (ms). -/
def TRIGGER_PRESS_TIME : Nat := 200

/-- The controller's global variables, plus the two actuation outputs:
`motorsOn` abstracts the four motor-driver pin levels written by
`runMotors()` / `stopMotors()` (`true` = both motors driven forward),
and `servoAngle` is the last angle written to `triggerServo`. -/
structure TurretState where
  motorsRunning : Bool
  motorStartTime : Nat
  continuousMode : Bool
  isFiring : Bool
  lastFireTime : Nat
  triggerPressStartTime : Nat
  triggerPressed : Bool
  motorsOn : Bool
  servoAngle : Nat
  deriving Repr, DecidableEq

/-- State after `setup()`: all flags at their initializers, `stopMotors()`
executed, servo written to 0. -/
def initState : TurretState :=
  { motorsRunning := false
    motorStartTime := 0
    continuousMode := false
    isFiring := false
    lastFireTime := 0
    triggerPressStartTime := 0
    triggerPressed := false
    motorsOn := false
    servoAngle := 0 }

/-- `runMotors()`: drive both motors forward. -/
def runMotors (s : TurretState) : TurretState :=
  { s with motorsOn := true }

/-- `stopMotors()`: all motor pins low. -/
def stopMotors (s : TurretState) : TurretState :=
  { s with motorsOn := false }

/-- `fireSingleShot()`: servo to 90, mark trigger pressed, record press
start time.  Note: the source has no guard on `triggerPressed`. -/
def fireSingleShot (s : TurretState) (now : Nat) : TurretState :=
  { s with servoAngle := 90
           triggerPressed := true
           triggerPressStartTime := now }

/-- The fire-interval elapsed test from `loop()`:
`millis() - lastFireTime > FIRE_INTERVAL` (strict). -/
def fireIntervalElapsed (now lastFireTime : Nat) : Bool :=
  now - lastFireTime > FIRE_INTERVAL

/-- The trigger-pulse elapsed test from `loop()`:
`millis() - triggerPressStartTime > TRIGGER_PRESS_TIME` (strict). -/
def triggerPulseElapsed (now pressStart : Nat) : Bool :=
  now - pressStart > TRIGGER_PRESS_TIME

/-- The motor-run timeout test from `loop()`:
`millis() - motorStartTime > MOTOR_RUN_TIME` (strict). -/
def motorTimedOut (now motorStart : Nat) : Bool :=
  now - motorStart > MOTOR_RUN_TIME

/-- Whether the continuous-fire branch of `loop()` fires on this tick. -/
def cadenceFires (s : TurretState) (now : Nat) : Bool :=
  s.continuousMode && s.isFiring && fireIntervalElapsed now s.lastFireTime

/-- First `if` of `loop()`: continuous-fire cadence
(`continuousMode && isFiring && millis() - lastFireTime > FIRE_INTERVAL`). -/
def cadencePhase (s : TurretState) (now : Nat) : TurretState :=
  if cadenceFires s now then
    { fireSingleShot s now with lastFireTime := now }
  else s

/-- Second `if` of `loop()`: release the trigger once the pulse duration
has strictly elapsed. -/
def triggerPhase (s : TurretState) (now : Nat) : TurretState :=
  if s.triggerPressed && triggerPulseElapsed now s.triggerPressStartTime then
    { s with servoAngle := 0, triggerPressed := false }
  else s

/-- Third `if` of `loop()`: the motor auto-stop fail-safe, skipped whenever
`continuousMode` is set. -/
def motorPhase (s : TurretState) (now : Nat) : TurretState :=
  if !s.continuousMode && s.motorsRunning && motorTimedOut now s.motorStartTime then
    { stopMotors s with motorsRunning := false }
  else s

/-- The timer section of `loop()` (everything after `server.handleClient()`),
evaluated at one clock reading `now`: continuous-fire cadence first, then
trigger release, then the motor auto-stop fail-safe, in source order. -/
def loopTick (s : TurretState) (now : Nat) : TurretState :=
  motorPhase (triggerPhase (cadencePhase s now) now) now

/-- `handleFire()`: run motors, arm the motor timeout, pulse the trigger,
respond `"SINGLE FIRE!"`.  Returns the new state and the list of
response bodies sent. -/
def handleFire (s : TurretState) (now : Nat) : TurretState × List String :=
  let s := runMotors s
  let s := { s with motorsRunning := true, motorStartTime := now }
  let s := fireSingleShot s now
  (s, ["SINGLE FIRE!"])

/-- `handleContinuous()`: dispatch on the optional `mode` query argument
exactly as the source does (`hasArg` / `arg`). -/
def handleContinuous (s : TurretState) (now : Nat) (modeArg : Option String) :
    TurretState × List String :=
  match modeArg with
  | some mode =>
    if mode = "start" then
      let s := { s with continuousMode := true, isFiring := true }
      let s := runMotors s
      let s := { s with motorsRunning := true, motorStartTime := now, lastFireTime := now }
      (s, ["CONTINUOUS FIRE STARTED"])
    else if mode = "stop" then
      let s := { s with continuousMode := false, isFiring := false }
      let s := stopMotors s
      let s := { s with motorsRunning := false }
      (s, ["CONTINUOUS FIRE STOPPED"])
    else
      (s, [])
  | none => (s, ["Missing mode parameter"])

/-- `handleStop()`: emergency stop — clear continuous mode, stop motors,
release the trigger immediately, respond `"STOPPED"`. -/
def handleStop (s : TurretState) : TurretState × List String :=
  let s := { s with continuousMode := false, isFiring := false }
  let s := stopMotors s
  let s := { s with motorsRunning := false }
  let s := { s with servoAngle := 0, triggerPressed := false }
  (s, ["STOPPED"])

/-- One external event of the system: a timer tick of `loop()` or one of
the three request handlers (the `mode` argument kept for
`/continuous`). -/
inductive Event where
  | tick : Event
  | fireSingle : Event
  | continuousCmd : Option String → Event
  | stopCmd : Event
  deriving Repr, DecidableEq

/-- One step: apply a timed event to the state (responses discarded). -/
def step (s : TurretState) : Nat × Event → TurretState
  | (now, Event.tick) => loopTick s now
  | (now, Event.fireSingle) => (handleFire s now).1
  | (now, Event.continuousCmd m) => (handleContinuous s now m).1
  | (_, Event.stopCmd) => (handleStop s).1

/-- Run a timed event trace from a state. -/
def run (s : TurretState) (events : List (Nat × Event)) : TurretState :=
  events.foldl step s

/-- The times at which the continuous-fire branch of `loop()` issues a
cadence trigger pulse along a trace (an observer over `step`; pulses
injected by `handleFire` are not cadence pulses). -/
def cadenceFireTimes (s : TurretState) : List (Nat × Event) → List Nat
  | [] => []
  | (now, e) :: rest =>
    if e = Event.tick ∧ cadenceFires s now = true then
      now :: cadenceFireTimes (step s (now, e)) rest
    else
      cadenceFireTimes (step s (now, e)) rest

/-! ### Frame lemmas about the phases of one loop tick -/

theorem cadencePhase_continuousMode (s : TurretState) (now : Nat) :
    (cadencePhase s now).continuousMode = s.continuousMode := by
  unfold cadencePhase fireSingleShot; split <;> rfl

theorem triggerPhase_continuousMode (s : TurretState) (now : Nat) :
    (triggerPhase s now).continuousMode = s.continuousMode := by
  unfold triggerPhase; split <;> rfl

theorem motorPhase_continuousMode (s : TurretState) (now : Nat) :
    (motorPhase s now).continuousMode = s.continuousMode := by
  unfold motorPhase stopMotors; split <;> rfl

theorem loopTick_continuousMode (s : TurretState) (now : Nat) :
    (loopTick s now).continuousMode = s.continuousMode := by
  unfold loopTick
  rw [motorPhase_continuousMode, triggerPhase_continuousMode,
    cadencePhase_continuousMode]

theorem cadencePhase_isFiring (s : TurretState) (now : Nat) :
    (cadencePhase s now).isFiring = s.isFiring := by
  unfold cadencePhase fireSingleShot; split <;> rfl

theorem triggerPhase_isFiring (s : TurretState) (now : Nat) :
    (triggerPhase s now).isFiring = s.isFiring := by
  unfold triggerPhase; split <;> rfl

theorem motorPhase_isFiring (s : TurretState) (now : Nat) :
    (motorPhase s now).isFiring = s.isFiring := by
  unfold motorPhase stopMotors; split <;> rfl

theorem loopTick_isFiring (s : TurretState) (now : Nat) :
    (loopTick s now).isFiring = s.isFiring := by
  unfold loopTick
  rw [motorPhase_isFiring, triggerPhase_isFiring, cadencePhase_isFiring]

theorem cadencePhase_motorStartTime (s : TurretState) (now : Nat) :
    (cadencePhase s now).motorStartTime = s.motorStartTime := by
  unfold cadencePhase fireSingleShot; split <;> rfl

theorem triggerPhase_motorStartTime (s : TurretState) (now : Nat) :
    (triggerPhase s now).motorStartTime = s.motorStartTime := by
  unfold triggerPhase; split <;> rfl

theorem motorPhase_motorStartTime (s : TurretState) (now : Nat) :
    (motorPhase s now).motorStartTime = s.motorStartTime := by
  unfold motorPhase stopMotors; split <;> rfl

theorem loopTick_motorStartTime (s : TurretState) (now : Nat) :
    (loopTick s now).motorStartTime = s.motorStartTime := by
  unfold loopTick
  rw [motorPhase_motorStartTime, triggerPhase_motorStartTime,
    cadencePhase_motorStartTime]

theorem triggerPhase_lastFireTime (s : TurretState) (now : Nat) :
    (triggerPhase s now).lastFireTime = s.lastFireTime := by
  unfold triggerPhase; split <;> rfl

theorem motorPhase_lastFireTime (s : TurretState) (now : Nat) :
    (motorPhase s now).lastFireTime = s.lastFireTime := by
  unfold motorPhase stopMotors; split <;> rfl

/-- A tick never changes `lastFireTime` unless its cadence branch fires. -/
theorem loopTick_lastFireTime (s : TurretState) (now : Nat)
    (h : cadenceFires s now = false) :
    (loopTick s now).lastFireTime = s.lastFireTime := by
  unfold loopTick
  rw [motorPhase_lastFireTime, triggerPhase_lastFireTime]
  unfold cadencePhase
  rw [h]
  rfl

/-- When the cadence branch fires, `lastFireTime` is reset to `now`. -/
theorem loopTick_lastFireTime_fired (s : TurretState) (now : Nat)
    (h : cadenceFires s now = true) :
    (loopTick s now).lastFireTime = now := by
  unfold loopTick
  rw [motorPhase_lastFireTime, triggerPhase_lastFireTime]
  unfold cadencePhase
  rw [h]
  rfl

theorem cadencePhase_motorsRunning (s : TurretState) (now : Nat) :
    (cadencePhase s now).motorsRunning = s.motorsRunning := by
  unfold cadencePhase fireSingleShot; split <;> rfl

theorem triggerPhase_motorsRunning (s : TurretState) (now : Nat) :
    (triggerPhase s now).motorsRunning = s.motorsRunning := by
  unfold triggerPhase; split <;> rfl

theorem cadencePhase_motorsOn (s : TurretState) (now : Nat) :
    (cadencePhase s now).motorsOn = s.motorsOn := by
  unfold cadencePhase fireSingleShot; split <;> rfl

theorem triggerPhase_motorsOn (s : TurretState) (now : Nat) :
    (triggerPhase s now).motorsOn = s.motorsOn := by
  unfold triggerPhase; split <;> rfl

/-- The "pin levels mirror the flag" invariant survives the motor phase. -/
theorem motorPhase_motors_eq (s : TurretState) (now : Nat)
    (hm : s.motorsOn = s.motorsRunning) :
    (motorPhase s now).motorsOn = (motorPhase s now).motorsRunning := by
  unfold motorPhase stopMotors; split
  · rfl
  · exact hm

theorem loopTick_motors_eq (s : TurretState) (now : Nat)
    (hm : s.motorsOn = s.motorsRunning) :
    (loopTick s now).motorsOn = (loopTick s now).motorsRunning := by
  unfold loopTick
  apply motorPhase_motors_eq
  rw [triggerPhase_motorsOn, triggerPhase_motorsRunning,
    cadencePhase_motorsOn, cadencePhase_motorsRunning]
  exact hm

/-- Outside continuous mode, once the motor timeout has strictly elapsed
the motor phase leaves the motors stopped (fires the auto-stop if they
were running, keeps them stopped otherwise). -/
theorem motorPhase_stops (s : TurretState) (now : Nat)
    (hc : s.continuousMode = false) (hm : s.motorsOn = s.motorsRunning)
    (h : motorTimedOut now s.motorStartTime = true) :
    (motorPhase s now).motorsRunning = false ∧ (motorPhase s now).motorsOn = false := by
  cases hr : s.motorsRunning with
  | true =>
    unfold motorPhase stopMotors
    rw [hc, hr, h]
    exact ⟨rfl, rfl⟩
  | false =>
    unfold motorPhase stopMotors
    rw [hc, hr, h]
    exact ⟨hr, hm.trans hr⟩

/-- Outside continuous mode, a tick past the motor timeout ends with the
motors stopped. -/
theorem loopTick_stops (s : TurretState) (now : Nat)
    (hc : s.continuousMode = false) (hm : s.motorsOn = s.motorsRunning)
    (h : motorTimedOut now s.motorStartTime = true) :
    (loopTick s now).motorsRunning = false ∧ (loopTick s now).motorsOn = false := by
  unfold loopTick
  apply motorPhase_stops
  · rw [triggerPhase_continuousMode, cadencePhase_continuousMode]; exact hc
  · rw [triggerPhase_motorsOn, triggerPhase_motorsRunning,
      cadencePhase_motorsOn, cadencePhase_motorsRunning]; exact hm
  · rw [triggerPhase_motorStartTime, cadencePhase_motorStartTime]; exact h

/-- Ticks preserve `continuousMode`, `motorStartTime` and the pin/flag
invariant across a whole run of `loop()` iterations. -/
theorem ticks_inv (ticks : List Nat) (s : TurretState)
    (hc : s.continuousMode = false) (hm : s.motorsOn = s.motorsRunning) :
    (ticks.foldl loopTick s).continuousMode = false ∧
    (ticks.foldl loopTick s).motorStartTime = s.motorStartTime ∧
    (ticks.foldl loopTick s).motorsOn = (ticks.foldl loopTick s).motorsRunning := by
  induction ticks generalizing s with
  | nil => exact ⟨hc, rfl, hm⟩
  | cons t ts ih =>
    simp only [List.foldl_cons]
    obtain ⟨a, b, c⟩ := ih (loopTick s t)
      ((loopTick_continuousMode s t).trans hc) (loopTick_motors_eq s t hm)
    exact ⟨a, b.trans (loopTick_motorStartTime s t), c⟩

/-! ### C1 -/

/-- C1: the claim that a new trigger pulse is never issued while
`triggerPressed` is already true FAILS on the code: `fireSingleShot()`
has no guard on `triggerPressed`.  Concretely, a second `/fire` request
at t = 100 ms — while the 200 ms pulse started at t = 0 is still
active — issues a fresh pulse (the press start time moves to 100). -/
theorem fireSingle_overlapping_pulse :
    ((handleFire initState 0).1.triggerPressed = true ∧
     (handleFire initState 0).1.triggerPressStartTime = 0) ∧
    ((handleFire (handleFire initState 0).1 100).1.triggerPressed = true ∧
     (handleFire (handleFire initState 0).1 100).1.triggerPressStartTime = 100) := by
  decide

/-! ### C2 -/

/-- C2 counterexample: a command sequence ending in `FireSingle` whose
motors are NOT stopped by a tick more than `MOTOR_RUN_TIME` after the
shot — `ContinuousStart` at t=0, `FireSingle` at t=10, tick at t=3000:
`continuousMode` is still set, so the auto-stop branch is skipped and
the motors are still running. -/
theorem fireSingle_failsafe_counterexample :
    (run initState [(0, Event.continuousCmd (some "start")),
        (10, Event.fireSingle), (3000, Event.tick)]).motorsRunning = true ∧
    (run initState [(0, Event.continuousCmd (some "start")),
        (10, Event.fireSingle), (3000, Event.tick)]).motorsOn = true := by
  decide

/-- C2 amended: provided continuous mode is NOT active when the
`FireSingle` arrives (and no later command re-enables it — only loop
ticks follow), every tick strictly more than `MOTOR_RUN_TIME` after the
shot finds the motors stopped: the auto-stop fires if they were still
running. -/
theorem fireSingle_failsafe (s : TurretState) (t : Nat) (ticks : List Nat)
    (now : Nat) (hc : s.continuousMode = false)
    (h : now - t > MOTOR_RUN_TIME) :
    (loopTick (ticks.foldl loopTick (handleFire s t).1) now).motorsRunning = false ∧
    (loopTick (ticks.foldl loopTick (handleFire s t).1) now).motorsOn = false := by
  have hc1 : (handleFire s t).1.continuousMode = false := hc
  have hm1 : (handleFire s t).1.motorsOn = (handleFire s t).1.motorsRunning := rfl
  have hstart : (handleFire s t).1.motorStartTime = t := rfl
  obtain ⟨a, b, c⟩ := ticks_inv ticks (handleFire s t).1 hc1 hm1
  apply loopTick_stops _ now a c
  rw [b, hstart]
  unfold motorTimedOut
  exact decide_eq_true h

/-- Witness for `fireSingle_failsafe`: `FireSingle` from the initial state
at t=0, one intermediate tick at t=100, final tick at t=2001. -/
theorem fireSingle_failsafe_witness :
    (loopTick (List.foldl loopTick (handleFire initState 0).1 [100]) 2001).motorsRunning
        = false ∧
    (loopTick (List.foldl loopTick (handleFire initState 0).1 [100]) 2001).motorsOn
        = false :=
  fireSingle_failsafe initState 0 [100] 2001 rfl (by decide)

/-! ### C3 -/

/-- C3: while `continuousMode` is set and the motors are running, no event
other than `ContinuousStop` or `EmergencyStop` stops them — in particular
a loop tick never fires the auto-stop branch there, no matter how much
time has elapsed, and it leaves the motor pins untouched. -/
theorem motorPhase_continuous_noop (s : TurretState) (now : Nat)
    (hc : s.continuousMode = true) : motorPhase s now = s := by
  unfold motorPhase
  rw [hc]
  rfl

theorem continuous_no_autostop (s : TurretState) (now : Nat) (e : Event)
    (hc : s.continuousMode = true) (hm : s.motorsRunning = true)
    (h1 : e ≠ Event.continuousCmd (some "stop")) (h2 : e ≠ Event.stopCmd) :
    (step s (now, e)).motorsRunning = true ∧
    (s.motorsOn = true → (step s (now, e)).motorsOn = true) := by
  cases e with
  | tick =>
    have hnoop : motorPhase (triggerPhase (cadencePhase s now) now) now
        = triggerPhase (cadencePhase s now) now := by
      apply motorPhase_continuous_noop
      rw [triggerPhase_continuousMode, cadencePhase_continuousMode]
      exact hc
    constructor
    · show (loopTick s now).motorsRunning = true
      unfold loopTick
      rw [hnoop, triggerPhase_motorsRunning, cadencePhase_motorsRunning]
      exact hm
    · intro ho
      show (loopTick s now).motorsOn = true
      unfold loopTick
      rw [hnoop, triggerPhase_motorsOn, cadencePhase_motorsOn]
      exact ho
  | fireSingle => exact ⟨rfl, fun _ => rfl⟩
  | continuousCmd m =>
    match m with
    | none => exact ⟨hm, fun ho => ho⟩
    | some mode =>
      by_cases hstart : mode = "start"
      · subst hstart
        exact ⟨rfl, fun _ => rfl⟩
      · by_cases hstop : mode = "stop"
        · exact absurd (by rw [hstop]) h1
        · simp only [step, handleContinuous, if_neg hstart, if_neg hstop]
          exact ⟨hm, fun ho => ho⟩
  | stopCmd => exact absurd rfl h2

/-- Witness for `continuous_no_autostop`: the state right after
`ContinuousStart` at t=0, tick at t=5000 (far beyond `MOTOR_RUN_TIME`). -/
theorem continuous_no_autostop_witness :
    (step (handleContinuous initState 0 (some "start")).1
        (5000, Event.tick)).motorsRunning = true ∧
    ((handleContinuous initState 0 (some "start")).1.motorsOn = true →
      (step (handleContinuous initState 0 (some "start")).1
          (5000, Event.tick)).motorsOn = true) :=
  continuous_no_autostop (handleContinuous initState 0 (some "start")).1 5000
    Event.tick (by decide) (by decide) (by decide) (by decide)

/-! ### C4 -/

/-- C4: one `handleStop()` from any state reaches the rest state — mode
cleared, motors off (flag and pins), trigger released immediately, servo
at rest — and a second `handleStop()` leaves that state unchanged. -/
theorem handleStop_rest_idempotent (s : TurretState) :
    ((handleStop s).1.continuousMode = false ∧
     (handleStop s).1.isFiring = false ∧
     (handleStop s).1.motorsRunning = false ∧
     (handleStop s).1.motorsOn = false ∧
     (handleStop s).1.triggerPressed = false ∧
     (handleStop s).1.servoAngle = 0) ∧
    (handleStop (handleStop s).1).1 = (handleStop s).1 := by
  simp [handleStop, stopMotors]

/-! ### C5 -/

/-- C5 counterexample: at an elapsed time exactly equal to the timeout
duration the code's check returns `false`, though `now − reference ≥
timeoutDuration` holds — the claimed iff-with-≥ contract fails (the
source compares with strict `>`).  Same shape for all three timers. -/
theorem timer_equality_counterexample :
    ¬ ((motorTimedOut MOTOR_RUN_TIME 0 = true ↔
          MOTOR_RUN_TIME - 0 ≥ MOTOR_RUN_TIME) ∧
       (triggerPulseElapsed TRIGGER_PRESS_TIME 0 = true ↔
          TRIGGER_PRESS_TIME - 0 ≥ TRIGGER_PRESS_TIME) ∧
       (fireIntervalElapsed FIRE_INTERVAL 0 = true ↔
          FIRE_INTERVAL - 0 ≥ FIRE_INTERVAL)) := by
  decide

/-- C5 amended: each elapsed-time predicate returns true iff
`now − reference` STRICTLY exceeds its duration; at exact equality all
three return `false`. -/
theorem timers_strict_iff (now r : Nat) :
    (motorTimedOut now r = true ↔ now - r > MOTOR_RUN_TIME) ∧
    (triggerPulseElapsed now r = true ↔ now - r > TRIGGER_PRESS_TIME) ∧
    (fireIntervalElapsed now r = true ↔ now - r > FIRE_INTERVAL) := by
  simp [motorTimedOut, triggerPulseElapsed, fireIntervalElapsed]

/-! ### C6 -/

/-- C6 counterexample: `ContinuousStart` does NOT fire a shot at t ≈ 0.
Right after the command the trigger is not pressed, and it is still not
pressed after a tick a full `fireInterval` later (the strict `>` means
the first cadence shot comes only after 500 ms have strictly elapsed). -/
theorem continuousStart_no_shot_at_zero :
    (step initState (0, Event.continuousCmd (some "start"))).triggerPressed = false ∧
    (loopTick (step initState (0, Event.continuousCmd (some "start")))
        FIRE_INTERVAL).triggerPressed = false := by
  decide

/-- C6 amended, as a concrete scenario: `ContinuousStart` at t=0 turns the
motors on but fires no shot; the first cadence shot comes at the first
tick strictly after `fireInterval` (t=501), the next strictly 500 ms
later (t=1002); `ContinuousStop` at t=1200 stops the motors immediately
and no cadence shot occurs at t≈1500 (`lastFireTime` stays 1002). -/
theorem continuous_scenario :
    ((run initState [(0, Event.continuousCmd (some "start"))]).triggerPressed = false ∧
     (run initState [(0, Event.continuousCmd (some "start"))]).motorsOn = true) ∧
    ((run initState [(0, Event.continuousCmd (some "start")),
        (500, Event.tick)]).triggerPressed = false) ∧
    ((run initState [(0, Event.continuousCmd (some "start")),
        (500, Event.tick), (501, Event.tick)]).triggerPressed = true ∧
     (run initState [(0, Event.continuousCmd (some "start")),
        (500, Event.tick), (501, Event.tick)]).lastFireTime = 501) ∧
    ((run initState [(0, Event.continuousCmd (some "start")),
        (500, Event.tick), (501, Event.tick), (702, Event.tick)]).triggerPressed = false) ∧
    ((run initState [(0, Event.continuousCmd (some "start")),
        (500, Event.tick), (501, Event.tick), (702, Event.tick),
        (1002, Event.tick)]).triggerPressed = true ∧
     (run initState [(0, Event.continuousCmd (some "start")),
        (500, Event.tick), (501, Event.tick), (702, Event.tick),
        (1002, Event.tick)]).lastFireTime = 1002) ∧
    ((run initState [(0, Event.continuousCmd (some "start")),
        (500, Event.tick), (501, Event.tick), (702, Event.tick),
        (1002, Event.tick), (1200, Event.continuousCmd (some "stop"))]).motorsOn = false ∧
     (run initState [(0, Event.continuousCmd (some "start")),
        (500, Event.tick), (501, Event.tick), (702, Event.tick),
        (1002, Event.tick), (1200, Event.continuousCmd (some "stop"))]).motorsRunning = false) ∧
    ((run initState [(0, Event.continuousCmd (some "start")),
        (500, Event.tick), (501, Event.tick), (702, Event.tick),
        (1002, Event.tick), (1200, Event.continuousCmd (some "stop")),
        (1503, Event.tick)]).triggerPressed = false ∧
     (run initState [(0, Event.continuousCmd (some "start")),
        (500, Event.tick), (501, Event.tick), (702, Event.tick),
        (1002, Event.tick), (1200, Event.continuousCmd (some "stop")),
        (1503, Event.tick)]).lastFireTime = 1002) := by
  decide

/-! ### C7 -/

/-- Every event either leaves `lastFireTime` alone or moves it to the
event's own time (a cadence-firing tick or a `ContinuousStart`). -/
theorem step_lastFireTime_cases (s : TurretState) (now : Nat) (e : Event) :
    (step s (now, e)).lastFireTime = s.lastFireTime ∨
    (step s (now, e)).lastFireTime = now := by
  cases e with
  | tick =>
    cases hb : cadenceFires s now with
    | false => exact Or.inl (loopTick_lastFireTime s now hb)
    | true => exact Or.inr (loopTick_lastFireTime_fired s now hb)
  | fireSingle => exact Or.inl rfl
  | continuousCmd m =>
    match m with
    | none => exact Or.inl rfl
    | some mode =>
      by_cases h1 : mode = "start"
      · subst h1
        exact Or.inr rfl
      · by_cases h2 : mode = "stop"
        · left
          simp only [step, handleContinuous, if_neg h1, if_pos h2, stopMotors]
        · left
          simp only [step, handleContinuous, if_neg h1, if_neg h2]
  | stopCmd => exact Or.inl rfl

/-- Relaxing the head of a chain under a pointwise implication on its
first link. -/
theorem chain_head_relax {R : Nat → Nat → Prop} {a b : Nat} {l : List Nat}
    (h : ∀ c, R b c → R a c) (hc : List.Chain R b l) : List.Chain R a l := by
  cases hc with
  | nil => exact List.Chain.nil
  | cons hr hcc => exact List.Chain.cons (h _ hr) hcc

/-- C7 counterexample: with continuous mode active and a cadence pulse
issued at t=501, a `FireSingle` request at t=900 injects a pulse only
102 ms before the next cadence pulse at t=1002 — consecutive trigger
pulses closer than `fireInterval`. -/
theorem cadence_spacing_counterexample :
    ((run initState [(0, Event.continuousCmd (some "start")), (501, Event.tick),
        (900, Event.fireSingle)]).continuousMode = true ∧
     (run initState [(0, Event.continuousCmd (some "start")), (501, Event.tick),
        (900, Event.fireSingle)]).triggerPressed = true ∧
     (run initState [(0, Event.continuousCmd (some "start")), (501, Event.tick),
        (900, Event.fireSingle)]).triggerPressStartTime = 900) ∧
    ((run initState [(0, Event.continuousCmd (some "start")), (501, Event.tick),
        (900, Event.fireSingle), (1002, Event.tick)]).triggerPressed = true ∧
     (run initState [(0, Event.continuousCmd (some "start")), (501, Event.tick),
        (900, Event.fireSingle), (1002, Event.tick)]).triggerPressStartTime = 1002) ∧
    1002 - 900 < FIRE_INTERVAL := by
  decide

/-- C7 amended: under a monotone clock — event times nondecreasing along
the trace and the current `lastFireTime` reference not in the future —
consecutive CADENCE pulses (those issued by the continuous-fire branch)
are spaced strictly more than `fireInterval` apart, across ALL command
interleavings: a `ContinuousStart` mid-mode only moves the reference
forward and so only delays the next shot.  Pulses injected by a
`FireSingle` during continuous mode are not subject to this bound. -/
theorem cadence_spacing (s : TurretState) (events : List (Nat × Event))
    (hclock : List.Chain (fun a b => a ≤ b) s.lastFireTime
      (events.map Prod.fst)) :
    List.Chain (fun a b => FIRE_INTERVAL < b - a) s.lastFireTime
      (cadenceFireTimes s events) := by
  induction events generalizing s with
  | nil => exact List.Chain.nil
  | cons p rest ih =>
    obtain ⟨now, e⟩ := p
    rw [List.map_cons] at hclock
    cases hclock with
    | cons hle htail =>
      by_cases hfire : e = Event.tick ∧ cadenceFires s now = true
      · rw [cadenceFireTimes, if_pos hfire]
        obtain ⟨he, hcad⟩ := hfire
        subst he
        refine List.Chain.cons ?_ ?_
        · have h3 := hcad
          unfold cadenceFires at h3
          simp only [Bool.and_eq_true] at h3
          have h4 := h3.2
          unfold fireIntervalElapsed at h4
          exact of_decide_eq_true h4
        · have hlast : (loopTick s now).lastFireTime = now :=
            loopTick_lastFireTime_fired s now hcad
          have hchain := ih (loopTick s now) (by rw [hlast]; exact htail)
          rw [hlast] at hchain
          exact hchain
      · rw [cadenceFireTimes, if_neg hfire]
        rcases step_lastFireTime_cases s now e with hcase | hcase
        · have hclock1 : List.Chain (fun a b => a ≤ b)
              (step s (now, e)).lastFireTime (rest.map Prod.fst) := by
            rw [hcase]
            exact chain_head_relax (fun c hc => le_trans hle hc) htail
          have hchain := ih (step s (now, e)) hclock1
          rw [hcase] at hchain
          exact hchain
        · have hchain := ih (step s (now, e)) (by rw [hcase]; exact htail)
          rw [hcase] at hchain
          exact chain_head_relax
            (fun c hc => lt_of_lt_of_le hc (Nat.sub_le_sub_left hle c)) hchain

/-- Witness for `cadence_spacing`: the state right after `ContinuousStart`
at t=0, a cadence shot at t=501, a redundant `ContinuousStart` at t=800
(which only delays the next shot), and the next cadence shot at t=1400. -/
theorem cadence_spacing_witness :
    List.Chain (fun a b => FIRE_INTERVAL < b - a)
      (handleContinuous initState 0 (some "start")).1.lastFireTime
      (cadenceFireTimes (handleContinuous initState 0 (some "start")).1
        [(501, Event.tick), (800, Event.continuousCmd (some "start")),
         (1400, Event.tick)]) :=
  cadence_spacing (handleContinuous initState 0 (some "start")).1
    [(501, Event.tick), (800, Event.continuousCmd (some "start")),
     (1400, Event.tick)]
    (List.Chain.cons (by decide)
      (List.Chain.cons (by decide) (List.Chain.cons (by decide) List.Chain.nil)))

/-! ### C8 -/

/-- C8 counterexample: a `/continuous` request whose `mode` argument is
present but neither `"start"` nor `"stop"` falls through both branches of
`handleContinuous` and sends NO response at all — a command path with
zero responses. -/
theorem continuous_unknown_mode_no_response :
    (handleContinuous initState 0 (some "reverse")).2 = [] ∧
    (handleContinuous initState 0 (some "reverse")).2.length = 0 := by
  decide

/-- C8 amended: `handleFire` and `handleStop` each send exactly one
response (`"SINGLE FIRE!"` resp. `"STOPPED"`); `handleContinuous` sends
at most one response, always drawn from the listed texts, and sends zero
exactly when the `mode` argument is present but neither `"start"` nor
`"stop"` (missing argument still gets the `"Missing mode parameter"`
error). -/
theorem command_responses (s : TurretState) (now : Nat) (m : Option String) :
    (handleFire s now).2 = ["SINGLE FIRE!"] ∧
    (handleStop s).2 = ["STOPPED"] ∧
    (handleContinuous s now m).2.length ≤ 1 ∧
    (∀ r ∈ (handleContinuous s now m).2,
      r = "CONTINUOUS FIRE STARTED" ∨ r = "CONTINUOUS FIRE STOPPED" ∨
      r = "Missing mode parameter") ∧
    ((handleContinuous s now m).2 = [] ↔
      ∃ mode, m = some mode ∧ mode ≠ "start" ∧ mode ≠ "stop") := by
  refine ⟨rfl, rfl, ?_⟩
  match m with
  | none =>
    have hr2 : (handleContinuous s now none).2 = ["Missing mode parameter"] := rfl
    rw [hr2]
    refine ⟨by decide, ?_, ?_⟩
    · intro r hr
      rw [List.mem_singleton] at hr
      exact Or.inr (Or.inr hr)
    · constructor
      · intro h
        exact absurd h (List.cons_ne_nil _ _)
      · rintro ⟨mode, hmode, hne1, hne2⟩
        exact Option.noConfusion hmode
  | some mode =>
    by_cases h1 : mode = "start"
    · subst h1
      have hr2 : (handleContinuous s now (some "start")).2
          = ["CONTINUOUS FIRE STARTED"] := rfl
      rw [hr2]
      refine ⟨by decide, ?_, ?_⟩
      · intro r hr
        rw [List.mem_singleton] at hr
        exact Or.inl hr
      · constructor
        · intro h
          exact absurd h (List.cons_ne_nil _ _)
        · rintro ⟨mode, hmode, hne1, hne2⟩
          rw [Option.some.injEq] at hmode
          exact absurd hmode.symm hne1
    · by_cases h2 : mode = "stop"
      · subst h2
        have hr2 : (handleContinuous s now (some "stop")).2
            = ["CONTINUOUS FIRE STOPPED"] := rfl
        rw [hr2]
        refine ⟨by decide, ?_, ?_⟩
        · intro r hr
          rw [List.mem_singleton] at hr
          exact Or.inr (Or.inl hr)
        · constructor
          · intro h
            exact absurd h (List.cons_ne_nil _ _)
          · rintro ⟨mode, hmode, hne1, hne2⟩
            rw [Option.some.injEq] at hmode
            exact absurd hmode.symm hne2
      · have hr2 : (handleContinuous s now (some mode)).2 = [] := by
          simp only [handleContinuous, if_neg h1, if_neg h2]
        rw [hr2]
        refine ⟨by decide, ?_, ?_⟩
        · intro r hr
          exact absurd hr (List.not_mem_nil r)
        · exact iff_of_true rfl ⟨mode, rfl, h1, h2⟩

/-! ### C9 -/

/-- C9: a `/continuous` request with no `mode` argument yields exactly the
error response `"Missing mode parameter"` and leaves every field of the
controller state exactly as it was. -/
theorem handleContinuous_missing_mode (s : TurretState) (now : Nat) :
    (handleContinuous s now none).2 = ["Missing mode parameter"] ∧
    (handleContinuous s now none).1 = s :=
  ⟨rfl, rfl⟩

/-! ### C10 -/

/-- C10: `handleFire()` leaves `continuousMode`, `isFiring` and
`lastFireTime` unchanged, and touches only the motor-run flag/reference,
the trigger-pulse state and the actuation outputs; in particular a
`FireSingle` during continuous mode does not cancel continuous mode. -/
theorem handleFire_frame (s : TurretState) (now : Nat) :
    ((handleFire s now).1.continuousMode = s.continuousMode ∧
     (handleFire s now).1.isFiring = s.isFiring ∧
     (handleFire s now).1.lastFireTime = s.lastFireTime) ∧
    ((handleFire s now).1.motorsRunning = true ∧
     (handleFire s now).1.motorStartTime = now ∧
     (handleFire s now).1.triggerPressed = true ∧
     (handleFire s now).1.triggerPressStartTime = now ∧
     (handleFire s now).1.motorsOn = true ∧
     (handleFire s now).1.servoAngle = 90) := by
  simp [handleFire, runMotors, fireSingleShot]

end Turret
